import Mathlib

/-!
Verification of the HelpBuddy patient web client's network resilience layer.

The definitions below are a shallow embedding of the client-side code:

* `Resp`, `requestResolve`   — the error shaping of `ApiClient.request`
  (src/api/client.ts), which normalizes every axios outcome into an
  `ApiResponse` value of shape `{success, data?, error?}`.
* `RLState`, `on429`         — the rate-limit governor inside the catch
  branch of `ApiClient.request` (429 handling).
* `GetKeyState`, `issueGet`, `settleGet` — the GET path of
  `ApiClient.request` for one `METHOD + URL` key: short-lived cache,
  in-flight deduplication, cache write on success, in-flight cleanup at
  settlement.
* `RefreshState`, `handleRefreshToken`, `shouldAttemptRefresh`,
  `retryWithToken` — the token-refresh single-flight and the response
  interceptor's retry decision.
* `Message`, `applyIncoming`, `sendOptimistic` — the ChatWindow's
  optimistic message list reducer.
* `handleGeoError`, `onFallbackFailure` — the geolocation retry/backoff
  of the `useLocation` hook.
* `SCState`, `connectClient` — the realtime `SocketClient.connect`.
* `ChatState`, `chatDisconnect`, `chatConnect`, `registerListener` —
  the `ChatSocketClient` listener registry lifecycle.

Time is modelled as `Nat` milliseconds since epoch (JS `Date.now()`);
timestamps are assumed monotone where noted. Callbacks and socket objects
are identified by `Nat` ids. JavaScript's event loop runs each synchronous
block atomically, so the check-then-register sequences in the source
(which contain no `await` between check and registration) are modelled as
single atomic transition functions; concurrency is the interleaving of
`issue` and `settle` transitions.
-/

namespace HelpBuddy

/-- JS `String.prototype.endsWith`, as a computation on the underlying
character list (so that concrete instances evaluate in the kernel). -/
def strEndsWith (s pat : String) : Bool :=
  decide (pat.data = s.data.drop (s.data.length - pat.data.length))

/-- JS `String.prototype.startsWith`, as a computation on the underlying
character list. -/
def strStartsWith (s pat : String) : Bool :=
  decide (s.data.take pat.data.length = pat.data)

/-- The `ApiResponse` shape `{success, data?, error?}` returned by
`ApiClient.request`. Payloads are modelled as strings. -/
structure Resp where
  success : Bool
  data : Option String := none
  error : Option String := none
deriving DecidableEq, Repr

/-- A structured server error body `{error?: string; message?: string}`
as read by `ApiClient.request`'s catch branch. -/
structure ServerBody where
  error : Option String := none
  message : Option String := none
deriving DecidableEq, Repr

/-- The possible outcomes of the underlying axios call:
a successful response carrying `response.data`; an axios error with an
HTTP response (status, parsed `retry-after` header, optional structured
body, axios `error.message`); an axios error without a response (network
failure, only `error.message`); or a non-axios throw. -/
inductive AxiosOutcome where
  | ok (resp : Resp)
  | httpErr (status : Nat) (retryAfter : Option Int) (body : Option ServerBody)
      (message : String)
  | netErr (message : String)
  | nonAxios
deriving DecidableEq, Repr

/-- JavaScript `a || b` over possibly-absent strings: the empty string is
falsy and falls through, mirroring `serverErr?.error || serverErr?.message
|| error.message`. -/
def jsOrStr (a : Option String) (b : String) : String :=
  match a with
  | some s => if s = "" then b else s
  | none => b

/-- `serverErr?.error || serverErr?.message || error.message` from the
catch branch of `ApiClient.request`. -/
def errMessage (body : Option ServerBody) (msg : String) : String :=
  match body with
  | some b => jsOrStr b.error (jsOrStr b.message msg)
  | none => msg

/-- The value `ApiClient.request` resolves to for each axios outcome:
success returns `response.data`; axios errors are shaped into
`{success: false, error: message}`; non-axios throws yield the generic
fallback. The function is total: the request never rejects past its
boundary. -/
def requestResolve : AxiosOutcome → Resp
  | .ok r => r
  | .httpErr _ _ body msg => { success := false, error := some (errMessage body msg) }
  | .netErr msg => { success := false, error := some msg }
  | .nonAxios => { success := false, error := some ("An unexpected error occurred") }

/-- The rate-limit governor's mutable fields of `ApiClient`:
`rateLimitUntil`, `rateLimitCount`, `lastRateLimitAt`. -/
structure RLState where
  rateLimitUntil : Option Nat := none
  rateLimitCount : Nat := 0
  lastRateLimitAt : Nat := 0
deriving DecidableEq, Repr

/-- Backoff base from the `Retry-After` header: `parsed * 1000` when the
header parses to a positive integer, else the 5000 ms default. `none`
models an absent or unparseable header. -/
def retryAfterBaseMs (h : Option Int) : Nat :=
  match h with
  | some p => if 0 < p then p.toNat * 1000 else 5000
  | none => 5000

/-- The consecutive-429 counter update: increments (capped at 4) when the
previous 429 was less than 60 s ago, else resets to 1. -/
def nextCount (s : RLState) (now : Nat) : Nat :=
  if now - s.lastRateLimitAt < 60000 then min (s.rateLimitCount + 1) 4 else 1

/-- Cooldown duration: base times the exponential factor
`min(2^(count-1), 8)`, with the total capped at 30000 ms. -/
def cooldownMs (base cnt : Nat) : Nat :=
  min (base * min (2 ^ (cnt - 1)) 8) 30000

/-- The 429 branch of `ApiClient.request`'s catch: updates the counter,
records the event time, and sets `rateLimitUntil = now + finalMs`. -/
def on429 (s : RLState) (now : Nat) (h : Option Int) : RLState :=
  let cnt := nextCount s now
  { rateLimitUntil := some (now + cooldownMs (retryAfterBaseMs h) cnt),
    rateLimitCount := cnt,
    lastRateLimitAt := now }

/-- The pre-request cooldown wait at the top of `ApiClient.request`: when
a rate-limit window is active, the request waits `until - now` plus a
random jitter (`j < 1500`) before dispatch. -/
def preRequestWaitMs (rl : RLState) (now j : Nat) : Nat :=
  match rl.rateLimitUntil with
  | some u => if now < u then (u - now) + j else 0
  | none => 0

/-- The per-key GET state of `ApiClient`: the cache entry for this
`METHOD + URL` key (`cache: Map<string, {ts, data}>`), the in-flight
registry entry (`inflightRequests: Map<string, Promise>`, modelled by the
id of the in-flight network call), a supply of fresh call ids, and the
list of network calls issued so far (for counting). -/
structure GetKeyState where
  cache : Option (Nat × Resp) := none
  inflight : Option Nat := none
  nextCall : Nat := 0
  netCalls : List Nat := []
deriving DecidableEq, Repr

/-- Cache TTL selection: 5000 ms when the URL is or ends with `/auth/me`
(string equality is subsumed by the suffix test), 3000 ms otherwise. -/
def cacheTTL (url : String) : Nat :=
  if strEndsWith url ("/auth/me") then 5000 else 3000

/-- What one call of `ApiClient.request` does synchronously for a GET:
served from the fresh cache, attached to an existing in-flight promise,
or a new network call started (and registered in the in-flight map). -/
inductive IssueResult where
  | cached (r : Resp)
  | joined (callId : Nat)
  | started (callId : Nat)
deriving DecidableEq, Repr

/-- The `cached && now - cached.ts < cacheTTL` test. (JS subtraction can
be negative there; with monotone timestamps `now ≥ ts`, `Nat` truncated
subtraction agrees.) -/
def cacheFresh (s : GetKeyState) (now ttl : Nat) : Bool :=
  match s.cache with
  | some (ts, _) => now - ts < ttl
  | none => false

/-- Cache-miss continuation of the GET path: reuse the in-flight promise
for the key when present, otherwise start a fresh network call and
register it in the in-flight map. In the source this whole block runs
without an intervening `await` (the async IIFE suspends at
`this.client.request` before the registration on the next line executes),
so it is one atomic transition. -/
def issueMiss (s : GetKeyState) : GetKeyState × IssueResult :=
  match s.inflight with
  | some id => (s, .joined id)
  | none =>
    ({ s with inflight := some s.nextCall,
              nextCall := s.nextCall + 1,
              netCalls := s.netCalls ++ [s.nextCall] },
     .started s.nextCall)

/-- The synchronous GET prefix of `ApiClient.request`: return the cached
payload when fresh, otherwise fall through to the in-flight check. -/
def issueGet (s : GetKeyState) (now ttl : Nat) : GetKeyState × IssueResult :=
  match s.cache with
  | some (ts, r) => if now - ts < ttl then (s, .cached r) else issueMiss s
  | none => issueMiss s

/-- Settlement of the shared in-flight promise: on success the response
body is cached with the settlement timestamp (superseding any older
entry); on a 429 error the rate-limit governor runs; in every case the
in-flight registry entry is removed (`promise.finally(() => delete)`)
and every attached caller receives the one shaped result. -/
def settleGet (s : GetKeyState) (rl : RLState) (now : Nat) (o : AxiosOutcome) :
    GetKeyState × RLState × Resp :=
  match o with
  | .ok r => ({ s with cache := some (now, r), inflight := none }, rl, r)
  | .httpErr status retryAfter body msg =>
    ({ s with inflight := none },
     (if status = 429 then on429 rl now retryAfter else rl),
     requestResolve (.httpErr status retryAfter body msg))
  | .netErr msg => ({ s with inflight := none }, rl, requestResolve (.netErr msg))
  | .nonAxios => ({ s with inflight := none }, rl, requestResolve .nonAxios)

/-- `n` GETs for the same key issued back to back (all before the shared
promise settles), returning the final state and each caller's issue
result, in order. -/
def issueList (s : GetKeyState) (now ttl : Nat) : Nat → GetKeyState × List IssueResult
  | 0 => (s, [])
  | n + 1 =>
    let p := issueGet s now ttl
    let q := issueList p.1 now ttl n
    (q.1, p.2 :: q.2)

/-- The token-refresh single-flight state of `ApiClient`:
`refreshPromise` (modelled by the id of the outstanding refresh call),
a fresh-id supply, and the list of refresh network calls made. -/
structure RefreshState where
  refreshInflight : Option Nat := none
  nextId : Nat := 0
  refreshCalls : List Nat := []
deriving DecidableEq, Repr

/-- `ApiClient.handleRefreshToken`: if a refresh promise is outstanding,
return it; otherwise start one refresh network call and record it as the
shared promise. Returns the id of the promise the caller awaits. -/
def handleRefreshToken (s : RefreshState) : RefreshState × Nat :=
  match s.refreshInflight with
  | some id => (s, id)
  | none =>
    ({ refreshInflight := some s.nextId,
       nextId := s.nextId + 1,
       refreshCalls := s.refreshCalls ++ [s.nextId] },
     s.nextId)

/-- The `finally` of the refresh promise: `this.refreshPromise = null`. -/
def settleRefresh (s : RefreshState) : RefreshState :=
  { s with refreshInflight := none }

/-- `n` callers entering `handleRefreshToken` before the shared promise
settles; returns the final state and the promise id each caller awaits. -/
def refreshList (s : RefreshState) : Nat → RefreshState × List Nat
  | 0 => (s, [])
  | n + 1 =>
    let p := handleRefreshToken s
    let q := refreshList p.1 n
    (q.1, p.2 :: q.2)

/-- The failing request's config as seen by the response interceptor:
its URL, the `_retry` flag, and the `Authorization` header. -/
structure ReqConfig where
  url : String
  hasRetried : Bool := false
  authHeader : Option String := none
deriving DecidableEq, Repr

/-- `url === API_URL + "/auth/refresh" || url.endsWith("/auth/refresh")`
(the equality disjunct is subsumed by the suffix test). -/
def isRefreshEndpoint (u : String) : Bool := strEndsWith u ("/auth/refresh")

/-- `url === API_URL + "/auth/me" || url.endsWith("/auth/me")`. -/
def isMeEndpoint (u : String) : Bool := strEndsWith u ("/auth/me")

/-- The response interceptor's guard: refresh-and-retry is attempted only
for a 401 (or a 403 on the `/auth/me` endpoint), when the request has not
already been retried and is not the refresh endpoint itself. -/
def shouldAttemptRefresh (status : Nat) (cfg : ReqConfig) : Bool :=
  (status == 401 || (status == 403 && isMeEndpoint cfg.url))
    && !cfg.hasRetried && !isRefreshEndpoint cfg.url

/-- The interceptor's retry of the original request after a successful
refresh: `_retry` is set and the `Authorization` header carries the
refreshed bearer token. -/
def retryWithToken (cfg : ReqConfig) (tok : String) : ReqConfig :=
  { cfg with hasRetried := true, authHeader := some ("Bearer " ++ tok) }

/-- `senderType ∈ {PATIENT, HELPER}`. -/
inductive SenderType where
  | patient
  | helper
deriving DecidableEq, Repr

/-- A chat message as held in the ChatWindow's `messages` state.
`createdAt` is the epoch-millisecond value of the ISO timestamp
(`new Date(createdAt).getTime()`); `message` is the optional text body. -/
structure Message where
  id : String
  serviceId : String
  senderId : String
  senderType : SenderType
  message : Option String := none
  isRead : Bool := false
  createdAt : Nat := 0
deriving DecidableEq, Repr

/-- `Math.abs(a - b)` over epoch milliseconds. -/
def natDist (a b : Nat) : Nat := max a b - min a b

/-- The fuzzy match of the ChatWindow's `onNewMessage` handler: an
optimistic temporary entry (`temp-` id) from the same sender with the
same text whose timestamp is within 5000 ms of the echo's. -/
def matchesTemp (t m : Message) : Bool :=
  strStartsWith t.id ("temp-") && t.senderId == m.senderId
    && t.message == m.message && natDist t.createdAt m.createdAt < 5000

/-- The ChatWindow `onNewMessage` reducer (after the `serviceId` filter):
if the incoming id is already present, replace that entry in place;
otherwise replace the first matching optimistic temporary entry in place
(`findIndex` + assignment); otherwise append. -/
def applyIncoming (prev : List Message) (m : Message) : List Message :=
  if prev.any fun x => x.id == m.id then
    prev.map fun x => if x.id == m.id then m else x
  else
    match prev.findIdx? fun x => matchesTemp x m with
    | some i => prev.set i m
    | none => prev ++ [m]

/-- The temporary optimistic message built by `handleSendMessage`: a
synthetic `temp-` id, the current user as PATIENT sender, the trimmed
text, unread, stamped with the current time. -/
def mkTempMessage (idSuffix serviceId userId content : String) (now : Nat) : Message :=
  { id := "temp-" ++ idSuffix,
    serviceId := serviceId,
    senderId := userId,
    senderType := .patient,
    message := some content,
    isRead := false,
    createdAt := now }

/-- `handleSendMessage`'s state update: append exactly one temporary
message to the visible list. -/
def sendOptimistic (prev : List Message) (idSuffix serviceId userId content : String)
    (now : Nat) : List Message :=
  prev ++ [mkTempMessage idSuffix serviceId userId content now]

/-- Geolocation error codes as tested by `useLocation.handleError`
(`PERMISSION_DENIED`, `POSITION_UNAVAILABLE`, `TIMEOUT`). -/
inductive GeoErrCode where
  | permissionDenied
  | positionUnavailable
  | timeout
deriving DecidableEq, Repr

/-- What `useLocation.handleError` schedules for an error: permission
denial is terminal (state set to denied, no retry of any kind scheduled);
a timeout triggers one single-shot `getCurrentPosition` fallback attempt;
any other error only surfaces a message. -/
inductive GeoAction where
  | denyTerminal
  | surfaceOnly (msg : String)
  | fallbackSingleShot
deriving DecidableEq, Repr

/-- The dispatch of `useLocation.handleError` on the error code. -/
def handleGeoError (code : GeoErrCode) (msg : String) : GeoAction :=
  match code with
  | .permissionDenied => .denyTerminal
  | .timeout => .fallbackSingleShot
  | .positionUnavailable => .surfaceOnly msg

/-- The watch restart scheduled when the single-shot fallback fails:
the updated retry counter, the backoff delay before restarting, and the
per-attempt timeout passed to the restarted `watchPosition`. -/
structure WatchRestart where
  retryCount : Nat
  delayMs : Nat
  watchTimeoutMs : Nat
deriving DecidableEq, Repr

/-- The failure callback of the fallback `getCurrentPosition` in
`useLocation.handleError`: `retryRef = min(5, retry + 1)`, backoff
`3000 * 2^(retry - 1)` ms, and a watch restart with timeout
`min(120000, 30000 * 2^(retry - 1))` ms. -/
def onFallbackFailure (r : Nat) : WatchRestart :=
  let r2 := min 5 (r + 1)
  { retryCount := r2,
    delayMs := 3000 * 2 ^ (r2 - 1),
    watchTimeoutMs := min 120000 (30000 * 2 ^ (r2 - 1)) }

/-- The success callback of the fallback `getCurrentPosition` resets the
retry counter to 0. -/
def onFallbackSuccessCount : Nat := 0

/-- The retry counter along a run of `n` consecutive fallback failures
(each restarted watch times out again, `handleError` fires another
single-shot attempt, and that attempt fails): the value of `retryRef`
after the `n`-th failure. Nothing in the code ends this run — every
failure schedules another watch restart — so the run is defined for
every `n`; only the counter saturates. -/
def retryAfterFailures : Nat → Nat
  | 0 => 0
  | n + 1 => (onFallbackFailure (retryAfterFailures n)).retryCount

/-- A realtime socket object: its identity, the token held in its `auth`
option, whether it is currently connected, and whether `.connect()` has
been invoked on it (the call is asynchronous, so it does not change
`connected` synchronously). -/
structure Sock where
  sid : Nat
  token : String
  connected : Bool
  connectCalled : Bool := false
deriving DecidableEq, Repr

/-- The realtime `SocketClient` state: the (at most one) socket object it
references, a fresh-id supply, and a count of socket objects created via
`io(...)`. -/
structure SCState where
  socket : Option Sock := none
  nextSid : Nat := 0
  created : Nat := 0
deriving DecidableEq, Repr

/-- `SocketClient.initSocketWithToken`: constructs a fresh socket object
with the given token and stores it in `this.socket`, replacing any
previous reference. -/
def initSocketWithToken (s : SCState) (t : String) : SCState × Nat :=
  ({ socket := some { sid := s.nextSid, token := t, connected := false },
     nextSid := s.nextSid + 1,
     created := s.created + 1 },
   s.nextSid)

/-- `SocketClient.connect`: resolve the token (argument, else stored);
with no token available return null (the silent-refresh path is
asynchronous and yields no socket now). With an existing socket, a
differing token updates `socket.auth` and, when not connected, invokes
`.connect()` on it; if the socket is (still) connected it is returned,
otherwise a fresh socket object is created. -/
def connectClient (s : SCState) (tok stored : Option String) : SCState × Option Nat :=
  match tok.orElse fun _ => stored with
  | none => (s, none)
  | some t =>
    match s.socket with
    | some sock =>
      let sock' :=
        if sock.token ≠ t then
          { sock with token := t,
                      connectCalled := sock.connectCalled || !sock.connected }
        else sock
      if sock'.connected then ({ s with socket := some sock' }, some sock'.sid)
      else
        let p := initSocketWithToken { s with socket := some sock' } t
        (p.1, some p.2)
    | none =>
      let p := initSocketWithToken s t
      (p.1, some p.2)

/-- A chat socket object: identity, token, connectedness, and the
listeners attached to it via `socket.on` (event name paired with the
callback's id). -/
structure ChatSock where
  csid : Nat
  token : String
  connected : Bool
  attached : List (String × Nat) := []
deriving DecidableEq, Repr

/-- The `ChatSocketClient` state: the socket, the tracked service room,
and the listener registry (`listeners: Map<string, Set<callback>>`,
flattened to event/callback pairs without duplicates). -/
structure ChatState where
  socket : Option ChatSock := none
  serviceId : Option String := none
  listeners : List (String × Nat) := []
  nextCsid : Nat := 0
deriving DecidableEq, Repr

/-- Events emitted on the chat socket that we track. -/
inductive ChatEmit where
  | leave (serviceId : String)
deriving DecidableEq, Repr

/-- Fresh chat socket construction inside `ChatSocketClient.connect`:
every previously registered listener in the registry is attached to the
new socket (the built-in connect/disconnect/auth handlers are re-added
each time and are not user callbacks, so they are not tracked here). -/
def mkNewChatSock (s : ChatState) (tok : String) : ChatState :=
  { s with socket := some { csid := s.nextCsid, token := tok, connected := false,
                            attached := s.listeners },
           nextCsid := s.nextCsid + 1 }

/-- `ChatSocketClient.connect`: reuse the socket when already connected,
otherwise create a fresh one and attach the registered listeners. -/
def chatConnect (s : ChatState) (tok : String) : ChatState :=
  match s.socket with
  | some sock => if sock.connected then s else mkNewChatSock s tok
  | none => mkNewChatSock s tok

/-- `ChatSocketClient._registerListener`: record the callback in the
registry unless already present, and attach it to the live socket when
one exists. -/
def registerListener (s : ChatState) (event : String) (cb : Nat) : ChatState :=
  if (event, cb) ∈ s.listeners then s
  else
    { s with listeners := s.listeners ++ [(event, cb)],
             socket := match s.socket with
               | some sock => some { sock with attached := sock.attached ++ [(event, cb)] }
               | none => none }

/-- `ChatSocketClient.leaveService`: with a socket and a tracked room,
emit `leave:service` and clear the tracked room; otherwise do nothing. -/
def chatLeaveService (s : ChatState) : ChatState × List ChatEmit :=
  match s.socket, s.serviceId with
  | some _, some sid => ({ s with serviceId := none }, [.leave sid])
  | _, _ => (s, [])

/-- `ChatSocketClient.disconnect`: with a socket, first a best-effort
`leaveService`, then tear the socket down; in every case the entire
listener registry is cleared (`this.listeners.clear()` runs outside the
`if`). -/
def chatDisconnect (s : ChatState) : ChatState × List ChatEmit :=
  match s.socket with
  | some _ =>
    let p := chatLeaveService s
    ({ p.1 with socket := none, listeners := [] }, p.2)
  | none => ({ s with listeners := [] }, [])

/-! ## Theorems -/

/-- C3: for every outcome of the underlying call — success, structured
server error, or network error with no response — `ApiClient.request`
resolves (never rejects past its boundary) to a value of shape
`{success, data?, error?}`: success returns the body unchanged, a network
error carries the transport's generic message, a structured server error
surfaces the server's message in the error field, and every non-success
outcome has `success = false` with the error field populated. -/
theorem request_never_throws (o : AxiosOutcome) (r : Resp) (m : String)
    (st : Nat) (ra : Option Int) (b : ServerBody) (e : String) :
    requestResolve (.ok r) = r
  ∧ requestResolve (.netErr m) = { success := false, data := none, error := some m }
  ∧ (b.error = some e → e ≠ "" →
      requestResolve (.httpErr st ra (some b) m) =
        { success := false, data := none, error := some e })
  ∧ ((∀ r2, o ≠ .ok r2) →
      (requestResolve o).success = false ∧ (requestResolve o).error ≠ none) := by
  refine ⟨rfl, rfl, ?_, ?_⟩
  · intro hb hne
    simp [requestResolve, errMessage, jsOrStr, hb, hne]
  · intro h
    cases o with
    | ok r2 => exact absurd rfl (h r2)
    | httpErr st2 ra2 b2 m2 => exact ⟨rfl, by simp [requestResolve]⟩
    | netErr m2 => exact ⟨rfl, by simp [requestResolve]⟩
    | nonAxios => exact ⟨rfl, by simp [requestResolve]⟩

/-- Witness for `request_never_throws` at concrete inputs. -/
theorem request_never_throws_witness :
    requestResolve (.ok { success := true }) = { success := true }
  ∧ requestResolve (.netErr ("Network Error")) =
      { success := false, data := none, error := some ("Network Error") }
  ∧ requestResolve (.httpErr 500 none (some { error := some ("boom") }) ("m")) =
      { success := false, data := none, error := some ("boom") }
  ∧ (requestResolve .nonAxios).success = false
  ∧ (requestResolve .nonAxios).error ≠ none := by
  have h := request_never_throws AxiosOutcome.nonAxios { success := true }
    ("Network Error") 500 none { error := some ("boom") } ("boom")
  have h4 := h.2.2.2 (by intro r2 hc; cases hc)
  exact ⟨h.1, h.2.1, h.2.2.1 rfl (by decide), h4.1, h4.2⟩

/-- C4 counterexample: on a fifth 429 arriving within 60 s of the fourth,
the consecutive counter does not increment — it is already saturated at 4
(`Math.min(count + 1, 4)`), contradicting the claim that the counter
increments on every within-window 429. -/
theorem rate_limit_counter_cap_counterexample :
    (on429 (on429 (on429 (on429 ({} : RLState) 100000 none) 100010 none)
        100020 none) 100030 none).rateLimitCount = 4
  ∧ 100040 - (on429 (on429 (on429 (on429 ({} : RLState) 100000 none) 100010 none)
        100020 none) 100030 none).lastRateLimitAt < 60000
  ∧ (on429 (on429 (on429 (on429 (on429 ({} : RLState) 100000 none) 100010 none)
        100020 none) 100030 none) 100040 none).rateLimitCount ≠ 4 + 1 := by
  decide

/-- The cooldown duration is monotone in the consecutive-429 counter. -/
theorem cooldownMs_mono (base : Nat) {c1 c2 : Nat} (h : c1 ≤ c2) :
    cooldownMs base c1 ≤ cooldownMs base c2 := by
  unfold cooldownMs
  have h1 : 2 ^ (c1 - 1) ≤ 2 ^ (c2 - 1) :=
    Nat.pow_le_pow_right (by norm_num) (Nat.sub_le_sub_right h 1)
  have h2 : min (2 ^ (c1 - 1)) 8 ≤ min (2 ^ (c2 - 1)) 8 := min_le_min h1 le_rfl
  exact min_le_min (Nat.mul_le_mul_left base h2) le_rfl

/-- The counter update never exceeds 4. -/
theorem nextCount_le_four (s : RLState) (now : Nat) : nextCount s now ≤ 4 := by
  unfold nextCount
  split
  · exact Nat.min_le_right _ _
  · norm_num

/-- C4 (amended): on each HTTP 429 signal the backoff base is the
`Retry-After` header in seconds when present and positive, else 5 s; if
less than 60 s elapsed since the previous 429 the consecutive counter
increments capped at 4 (which already saturates the 8× factor), else it
resets to 1; the cooldown is base times an exponential factor capped at
8×, with the total wait capped at 30 s — hence for 429s with the same
`Retry-After` within 60 s of each other the cooldown duration is
non-decreasing up to the cap, and resets to the base duration after a
gap of at least 60 s. -/
theorem rate_limit_backoff (s : RLState) (now now2 : Nat) (h : Option Int) (p : Int) :
    retryAfterBaseMs none = 5000
  ∧ (0 < p → retryAfterBaseMs (some p) = p.toNat * 1000)
  ∧ (¬ 0 < p → retryAfterBaseMs (some p) = 5000)
  ∧ (now - s.lastRateLimitAt < 60000 →
      (on429 s now h).rateLimitCount = min (s.rateLimitCount + 1) 4)
  ∧ (¬ now - s.lastRateLimitAt < 60000 → (on429 s now h).rateLimitCount = 1)
  ∧ (on429 s now h).rateLimitUntil
      = some (now + cooldownMs (retryAfterBaseMs h) (nextCount s now))
  ∧ min (2 ^ (nextCount s now - 1)) 8 ≤ 8
  ∧ cooldownMs (retryAfterBaseMs h) (nextCount s now) ≤ 30000
  ∧ (now2 - (on429 s now h).lastRateLimitAt < 60000 →
      cooldownMs (retryAfterBaseMs h) (nextCount s now)
        ≤ cooldownMs (retryAfterBaseMs h) (nextCount (on429 s now h) now2))
  ∧ (¬ now2 - (on429 s now h).lastRateLimitAt < 60000 →
      cooldownMs (retryAfterBaseMs h) (nextCount (on429 s now h) now2)
        = min (retryAfterBaseMs h) 30000) := by
  refine ⟨rfl, ?_, ?_, ?_, ?_, rfl, Nat.min_le_right _ _, Nat.min_le_right _ _, ?_, ?_⟩
  · intro hp; simp [retryAfterBaseMs, hp]
  · intro hp; simp [retryAfterBaseMs, hp]
  · intro hwin; simp [on429, nextCount, hwin]
  · intro hwin; simp [on429, nextCount, hwin]
  · intro hwin
    have hc2 : nextCount (on429 s now h) now2 = min (nextCount s now + 1) 4 := by
      simp only [on429, nextCount] at hwin ⊢
      rw [if_pos hwin]
    rw [hc2]
    exact cooldownMs_mono _ (Nat.le_min.mpr ⟨Nat.le_succ _, nextCount_le_four s now⟩)
  · intro hwin
    have hc2 : nextCount (on429 s now h) now2 = 1 := by
      simp only [on429, nextCount] at hwin ⊢
      rw [if_neg hwin]
    rw [hc2]
    simp [cooldownMs]

/-- Witness for `rate_limit_backoff` at concrete inputs: a first 429 at
t = 100000 with no header resets the counter to 1, its cooldown is within
the 30 s cap, and a second 429 10 ms later has a cooldown at least as
long. -/
theorem rate_limit_backoff_witness :
    (on429 ({} : RLState) 100000 none).rateLimitCount = 1
  ∧ retryAfterBaseMs (some 10) = 10000
  ∧ cooldownMs (retryAfterBaseMs none) (nextCount ({} : RLState) 100000) ≤ 30000
  ∧ cooldownMs (retryAfterBaseMs none) (nextCount ({} : RLState) 100000)
      ≤ cooldownMs (retryAfterBaseMs none)
          (nextCount (on429 ({} : RLState) 100000 none) 100010) := by
  obtain ⟨h1, h2, h3, h4, h5, h6, h7, h8, h9, h10⟩ :=
    rate_limit_backoff ({} : RLState) 100000 100010 none 10
  exact ⟨h5 (by decide), by simpa using h2 (by decide), h8, h9 (by decide)⟩

/-- With a stale or absent cache entry and an in-flight promise for the
key, a GET joins the existing promise and leaves the state unchanged. -/
theorem issueGet_joined (s : GetKeyState) (now ttl id : Nat)
    (hc : cacheFresh s now ttl = false) (hin : s.inflight = some id) :
    issueGet s now ttl = (s, IssueResult.joined id) := by
  cases hcache : s.cache with
  | none => simp [issueGet, issueMiss, hcache, hin]
  | some p =>
    obtain ⟨ts, r⟩ := p
    have hlt : ¬ now - ts < ttl := by simpa [cacheFresh, hcache] using hc
    simp [issueGet, issueMiss, hcache, hlt, hin]

/-- With a stale or absent cache entry and no in-flight promise, a GET
starts and registers exactly one new network call. -/
theorem issueGet_started (s : GetKeyState) (now ttl : Nat)
    (hc : cacheFresh s now ttl = false) (hin : s.inflight = none) :
    issueGet s now ttl =
      ({ s with inflight := some s.nextCall, nextCall := s.nextCall + 1,
                netCalls := s.netCalls ++ [s.nextCall] },
       IssueResult.started s.nextCall) := by
  cases hcache : s.cache with
  | none => simp [issueGet, issueMiss, hcache, hin]
  | some p =>
    obtain ⟨ts, r⟩ := p
    have hlt : ¬ now - ts < ttl := by simpa [cacheFresh, hcache] using hc
    simp [issueGet, issueMiss, hcache, hlt, hin]

/-- All GETs issued while a promise is in flight join it and change
nothing. -/
theorem issueList_joined (now ttl id : Nat) (n : Nat) :
    ∀ s : GetKeyState, cacheFresh s now ttl = false → s.inflight = some id →
      issueList s now ttl n = (s, List.replicate n (IssueResult.joined id)) := by
  induction n with
  | zero => intro s _ _; simp [issueList]
  | succ n ih =>
    intro s hc hin
    simp [issueList, issueGet_joined s now ttl id hc hin, ih s hc hin,
      List.replicate_succ]

/-- The in-flight registry entry is removed at settlement for every
outcome. -/
theorem settleGet_inflight (s : GetKeyState) (rl : RLState) (now : Nat)
    (o : AxiosOutcome) : (settleGet s rl now o).1.inflight = none := by
  cases o <;> simp [settleGet]

/-- C1: for `n + 1` concurrent GETs with the same method+URL key, all
issued before the first settles (no fresh cache entry), exactly one
network call is made — the first caller starts call `s.nextCall` and all
later callers join that same call, so every caller receives the one
value it settles to — and the in-flight registry entry is removed when
the shared promise settles, for every outcome. -/
theorem single_flight_get (s : GetKeyState) (rl : RLState)
    (now ttl n now2 : Nat) (o : AxiosOutcome)
    (hin : s.inflight = none) (hc : cacheFresh s now ttl = false) :
    (issueList s now ttl (n + 1)).2
      = IssueResult.started s.nextCall :: List.replicate n (IssueResult.joined s.nextCall)
  ∧ (issueList s now ttl (n + 1)).1.netCalls = s.netCalls ++ [s.nextCall]
  ∧ (settleGet (issueList s now ttl (n + 1)).1 rl now2 o).1.inflight = none := by
  have h1 := issueGet_started s now ttl hc hin
  set s1 : GetKeyState :=
    { s with inflight := some s.nextCall, nextCall := s.nextCall + 1,
             netCalls := s.netCalls ++ [s.nextCall] } with hs1
  have hc1 : cacheFresh s1 now ttl = false := by
    cases hcache : s.cache with
    | none => simp [cacheFresh, hs1, hcache]
    | some p => obtain ⟨ts, r⟩ := p
                simpa [cacheFresh, hs1, hcache] using hc
  have h2 := issueList_joined now ttl s.nextCall n s1 hc1 rfl
  refine ⟨?_, ?_, settleGet_inflight _ _ _ _⟩
  · simp [issueList, h1, h2]
  · simp [issueList, h1, h2]

/-- Witness for `single_flight_get`: three concurrent GETs from the empty
state make exactly network call 0 and the registry is empty after a
network-error settlement. -/
theorem single_flight_get_witness :
    (issueList ({} : GetKeyState) 1000 3000 3).2
      = IssueResult.started 0 :: List.replicate 2 (IssueResult.joined 0)
  ∧ (issueList ({} : GetKeyState) 1000 3000 3).1.netCalls = [] ++ [0]
  ∧ (settleGet (issueList ({} : GetKeyState) 1000 3000 3).1 ({} : RLState) 2000
        (.netErr ("boom"))).1.inflight = none :=
  single_flight_get {} {} 1000 3000 2 2000 (.netErr ("boom")) rfl rfl

/-- C5: a GET whose cached entry for the method+URL key is younger than
the TTL (5000 ms for a URL that is or ends with `/auth/me`, 3000 ms
otherwise) returns the cached payload with no state change and no network
call; with no fresh cache entry and no identical request in flight, a new
network call is issued and, at a successful settlement, the response body
is stored in the cache with the settlement timestamp, superseding any
older entry for the key. -/
theorem get_cache_ttl (url : String) (s : GetKeyState) (rl : RLState)
    (now ts now2 : Nat) (r r2 : Resp) :
    (s.cache = some (ts, r) → now - ts < cacheTTL url →
      issueGet s now (cacheTTL url) = (s, IssueResult.cached r))
  ∧ (cacheFresh s now (cacheTTL url) = false → s.inflight = none →
      (issueGet s now (cacheTTL url)).2 = IssueResult.started s.nextCall
    ∧ (issueGet s now (cacheTTL url)).1.netCalls = s.netCalls ++ [s.nextCall]
    ∧ (settleGet (issueGet s now (cacheTTL url)).1 rl now2 (.ok r2)).1.cache
        = some (now2, r2))
  ∧ (strEndsWith url ("/auth/me") = true → cacheTTL url = 5000)
  ∧ (strEndsWith url ("/auth/me") = false → cacheTTL url = 3000) := by
  refine ⟨?_, ?_, ?_, ?_⟩
  · intro hcache hlt
    simp [issueGet, hcache, hlt]
  · intro hc hin
    have h1 := issueGet_started s now (cacheTTL url) hc hin
    exact ⟨by simp [h1], by simp [h1], by rw [h1]; simp [settleGet]⟩
  · intro h; simp [cacheTTL, h]
  · intro h; simp [cacheTTL, h]

/-- Witness for `get_cache_ttl`: a fresh `/auth/me` entry aged 500 ms is
served from cache; a cold GET stores its successful response at the
settlement time; the two TTL constants. -/
theorem get_cache_ttl_witness :
    issueGet { cache := some (500, { success := true }) } 1000 (cacheTTL ("/auth/me"))
      = ({ cache := some (500, { success := true }) },
         IssueResult.cached { success := true })
  ∧ (settleGet (issueGet ({} : GetKeyState) 1000 (cacheTTL ("/services/active"))).1
        ({} : RLState) 1500 (.ok { success := true })).1.cache
      = some (1500, { success := true })
  ∧ cacheTTL ("/auth/me") = 5000
  ∧ cacheTTL ("/services/active") = 3000 := by
  have h1 := get_cache_ttl ("/auth/me") { cache := some (500, { success := true }) }
    {} 1000 500 0 { success := true } { success := true }
  have h2 := get_cache_ttl ("/services/active") ({} : GetKeyState)
    {} 1000 0 1500 { success := true } { success := true }
  exact ⟨h1.1 rfl (by decide), (h2.2.1 rfl rfl).2.2,
    h1.2.2.1 (by decide), h2.2.2.2 (by decide)⟩

/-- C6 counterexample: a request whose network call settles with HTTP 429
resolves to an error result surfaced to the caller (`success = false`
with the rate-limit message) and issues no further network call — the
code does not transparently retry the rate-limited request. -/
theorem rate_limit_surfaced_counterexample :
    (settleGet ({} : GetKeyState) ({} : RLState) 100000
        (.httpErr 429 none none ("Request failed with status code 429"))).2.2
      = { success := false, data := none,
          error := some ("Request failed with status code 429") }
  ∧ (settleGet ({} : GetKeyState) ({} : RLState) 100000
        (.httpErr 429 none none ("Request failed with status code 429"))).1.netCalls
      = [] :=
  ⟨rfl, rfl⟩

/-- C6 (amended): a 429 settlement is not retried — the failing request
itself resolves to an error result for the caller and adds no network
call — but it records a cooldown window `now + cooldown`, and any
subsequent request issued before the window expires first waits at least
until the window's end (plus jitter). -/
theorem rate_limit_cooldown (s : GetKeyState) (rl : RLState)
    (now now2 j : Nat) (ra : Option Int) (b : Option ServerBody) (m : String)
    (hwait : now2 < now + cooldownMs (retryAfterBaseMs ra) (nextCount rl now)) :
    ((settleGet s rl now (.httpErr 429 ra b m)).2.2).success = false
  ∧ (settleGet s rl now (.httpErr 429 ra b m)).1.netCalls = s.netCalls
  ∧ (settleGet s rl now (.httpErr 429 ra b m)).2.1.rateLimitUntil
      = some (now + cooldownMs (retryAfterBaseMs ra) (nextCount rl now))
  ∧ (now + cooldownMs (retryAfterBaseMs ra) (nextCount rl now)) - now2
      ≤ preRequestWaitMs (settleGet s rl now (.httpErr 429 ra b m)).2.1 now2 j := by
  refine ⟨rfl, rfl, by simp [settleGet, on429], ?_⟩
  have hrl : (settleGet s rl now (.httpErr 429 ra b m)).2.1 = on429 rl now ra := by
    simp [settleGet]
  rw [hrl]
  simp only [preRequestWaitMs, on429, if_pos hwait]
  exact Nat.le_add_right _ _

/-- Witness for `rate_limit_cooldown`: a 429 with no `Retry-After` at
t = 100000 yields an error result, a window ending at 105000, and a
request at t = 100010 waits at least the remaining 4990 ms. -/
theorem rate_limit_cooldown_witness :
    ((settleGet ({} : GetKeyState) ({} : RLState) 100000
        (.httpErr 429 none none ("x"))).2.2).success = false
  ∧ (settleGet ({} : GetKeyState) ({} : RLState) 100000
        (.httpErr 429 none none ("x"))).2.1.rateLimitUntil
      = some (100000 + cooldownMs (retryAfterBaseMs none) (nextCount ({} : RLState) 100000))
  ∧ (100000 + cooldownMs (retryAfterBaseMs none) (nextCount ({} : RLState) 100000)) - 100010
      ≤ preRequestWaitMs (settleGet ({} : GetKeyState) ({} : RLState) 100000
          (.httpErr 429 none none ("x"))).2.1 100010 7 := by
  have h := rate_limit_cooldown {} {} 100000 100010 7 none none ("x") (by decide)
  exact ⟨h.1, h.2.2.1, h.2.2.2⟩

/-- Callers entering `handleRefreshToken` while a refresh promise is
outstanding all receive that same promise and change nothing. -/
theorem refreshList_joined (id n : Nat) :
    ∀ s : RefreshState, s.refreshInflight = some id →
      refreshList s n = (s, List.replicate n id) := by
  induction n with
  | zero => intro s _; simp [refreshList]
  | succ n ih =>
    intro s hin
    simp [refreshList, handleRefreshToken, hin, ih s hin, List.replicate_succ]

/-- C2: `n + 1` concurrent requests that each receive a 401 (or a 403 on
the `/auth/me` endpoint) and enter the refresh path before the shared
refresh promise settles trigger exactly one refresh network call — every
caller awaits the same promise id — the promise slot is cleared at
settlement; the guard only fires for a request that has not been retried
and is not the refresh endpoint itself, the retried request carries the
refreshed bearer token, and a retried request can never trigger a second
refresh (retried exactly once). -/
theorem refresh_dedup (s : RefreshState) (n : Nat) (cfg : ReqConfig)
    (tok : String) (status : Nat) (hin : s.refreshInflight = none)
    (hok : shouldAttemptRefresh status cfg = true) :
    (refreshList s (n + 1)).1.refreshCalls = s.refreshCalls ++ [s.nextId]
  ∧ (refreshList s (n + 1)).2 = List.replicate (n + 1) s.nextId
  ∧ (settleRefresh (refreshList s (n + 1)).1).refreshInflight = none
  ∧ cfg.hasRetried = false
  ∧ isRefreshEndpoint cfg.url = false
  ∧ (retryWithToken cfg tok).authHeader = some ("Bearer " ++ tok)
  ∧ (∀ st2, shouldAttemptRefresh st2 (retryWithToken cfg tok) = false) := by
  have h1 : handleRefreshToken s =
      ({ refreshInflight := some s.nextId, nextId := s.nextId + 1,
         refreshCalls := s.refreshCalls ++ [s.nextId] }, s.nextId) := by
    simp [handleRefreshToken, hin]
  have h2 := refreshList_joined s.nextId n
    { refreshInflight := some s.nextId, nextId := s.nextId + 1,
      refreshCalls := s.refreshCalls ++ [s.nextId] } rfl
  have hflags := hok
  simp only [shouldAttemptRefresh, Bool.and_eq_true, Bool.not_eq_true'] at hflags
  refine ⟨?_, ?_, ?_, hflags.1.2, hflags.2, rfl, ?_⟩
  · simp [refreshList, h1, h2]
  · simp [refreshList, h1, h2, List.replicate_succ]
  · simp [settleRefresh]
  · intro st2
    simp [shouldAttemptRefresh, retryWithToken]

/-- Witness for `refresh_dedup`: three concurrent 403s on `/auth/me`
share refresh call 0, and the retried request cannot refresh again. -/
theorem refresh_dedup_witness :
    (refreshList ({} : RefreshState) 3).1.refreshCalls = [] ++ [0]
  ∧ (refreshList ({} : RefreshState) 3).2 = List.replicate 3 0
  ∧ (settleRefresh (refreshList ({} : RefreshState) 3).1).refreshInflight = none
  ∧ (retryWithToken { url := "/auth/me" } ("tok2")).authHeader
      = some ("Bearer " ++ "tok2")
  ∧ shouldAttemptRefresh 401 (retryWithToken { url := "/auth/me" } ("tok2")) = false := by
  have h := refresh_dedup {} 2 { url := "/auth/me" } ("tok2") 403 rfl (by decide)
  exact ⟨h.1, h.2.1, h.2.2.1, h.2.2.2.2.2.1, h.2.2.2.2.2.2 401⟩

/-- A list containing an element satisfying `p` has a first index for
`p`. -/
theorem findIdx?_isSome_of_any {α} (l : List α) (p : α → Bool)
    (h : l.any p = true) : ∃ i, l.findIdx? p = some i := by
  cases hf : l.findIdx? p with
  | some i => exact ⟨i, rfl⟩
  | none =>
    rw [List.findIdx?_eq_none_iff] at hf
    rw [List.any_eq_true] at h
    obtain ⟨x, hx, hpx⟩ := h
    have := hf x hx
    simp [hpx] at this

/-- C7: `handleSendMessage` adds exactly one locally visible temporary
entry, with a synthetic `temp-` id and the current timestamp; and when a
server echo arrives that either carries an id already present or matches
an optimistic temporary entry (same sender, identical text, timestamps
within 5 s), the `onNewMessage` reducer replaces the entry in place — the
visible message count is unchanged and no duplicate is appended. -/
theorem chat_optimistic_reconciliation (prev : List Message) (m : Message)
    (idSuffix serviceId userId content : String) (now : Nat) :
    (sendOptimistic prev idSuffix serviceId userId content now).length
      = prev.length + 1
  ∧ strStartsWith (mkTempMessage idSuffix serviceId userId content now).id
      ("temp-") = true
  ∧ (mkTempMessage idSuffix serviceId userId content now).createdAt = now
  ∧ ((prev.any fun x => x.id == m.id) = true
        ∨ (prev.any fun x => matchesTemp x m) = true →
      (applyIncoming prev m).length = prev.length) := by
  refine ⟨by simp [sendOptimistic], ?_, rfl, ?_⟩
  · show strStartsWith ("temp-" ++ idSuffix) ("temp-") = true
    simp only [strStartsWith, decide_eq_true_eq]
    have hd : ("temp-" ++ idSuffix).data = ("temp-").data ++ idSuffix.data := rfl
    rw [hd]
    exact List.take_left _ _
  · intro h
    by_cases hid : (prev.any fun x => x.id == m.id) = true
    · simp [applyIncoming, hid]
    · have hfz : (prev.any fun x => matchesTemp x m) = true := by
        rcases h with h | h
        · exact absurd h hid
        · exact h
      obtain ⟨i, hi⟩ := findIdx?_isSome_of_any prev _ hfz
      simp [applyIncoming, hid, hi]

/-- Witness for `chat_optimistic_reconciliation`: one optimistic send into
an empty window, and a server echo (fresh id, same sender, same text,
500 ms later) replacing the temporary entry without growing the list. -/
theorem chat_optimistic_reconciliation_witness :
    (sendOptimistic [mkTempMessage ("1-ab") ("s1") ("u1") ("hi") 1000]
        ("2-cd") ("s1") ("u1") ("yo") 1200).length
      = [mkTempMessage ("1-ab") ("s1") ("u1") ("hi") 1000].length + 1
  ∧ strStartsWith (mkTempMessage ("2-cd") ("s1") ("u1") ("yo") 1200).id
      ("temp-") = true
  ∧ (applyIncoming [mkTempMessage ("1-ab") ("s1") ("u1") ("hi") 1000]
        { id := "m9", serviceId := "s1", senderId := "u1",
          senderType := .patient, message := some ("hi"), isRead := true,
          createdAt := 1500 }).length
      = [mkTempMessage ("1-ab") ("s1") ("u1") ("hi") 1000].length := by
  have h := chat_optimistic_reconciliation
    [mkTempMessage ("1-ab") ("s1") ("u1") ("hi") 1000]
    { id := "m9", serviceId := "s1", senderId := "u1",
      senderType := .patient, message := some ("hi"), isRead := true,
      createdAt := 1500 }
    ("2-cd") ("s1") ("u1") ("yo") 1200
  exact ⟨h.1, h.2.1, h.2.2.2 (Or.inr (by decide))⟩

/-- C8 counterexample: the retry sequence is not capped at 5 attempts.
After five consecutive failed single-shot attempts the counter sits at
its saturation value 5, yet a sixth watch timeout still maps to another
single-shot `getCurrentPosition` attempt (`handleError` dispatches on the
error code alone, never on the counter), and that attempt's failure still
schedules another watch restart — with the delay saturated at 48 s and
the watch timeout at 120 s — so attempts continue without bound,
contradicting the claim's "at most 5 attempts". -/
theorem geo_unbounded_attempts_counterexample :
    retryAfterFailures 5 = 5
  ∧ handleGeoError .timeout ("Timeout expired") = .fallbackSingleShot
  ∧ (onFallbackFailure (retryAfterFailures 5)).retryCount = 5
  ∧ (onFallbackFailure (retryAfterFailures 5)).delayMs = 48000
  ∧ (onFallbackFailure (retryAfterFailures 5)).watchTimeoutMs = 120000 := by
  decide

/-- Along a run of consecutive fallback failures the retry counter is
exactly `min 5 n`: it saturates at 5 and the run never terminates it. -/
theorem retryAfterFailures_eq_min (n : Nat) : retryAfterFailures n = min 5 n := by
  induction n with
  | zero => rfl
  | succ n ih =>
    have hrc : ∀ m : Nat, (onFallbackFailure m).retryCount = min 5 (m + 1) :=
      fun m => rfl
    rw [retryAfterFailures, hrc, ih]
    omega

/-- C8 (amended): in the geolocation tracker, a timeout error is
transient — each timeout triggers one single-shot `getCurrentPosition`
fallback attempt, and each failed attempt schedules a restart of the
continuous watch: the retry counter is capped at 5, the delay before the
restart doubles from a 3 s base (`3000 · 2^(n-1)` ms) while the counter
is below its cap, and the restarted watch gets a progressively longer
per-attempt timeout capped at 120 s. The attempts themselves are not
bounded: the counter along any failure run is `min 5 n`, and after it
saturates further failures still schedule restarts with the saturated
48 s delay. Permission-denied, by contrast, is terminal — it schedules
no fallback attempt and no retry. -/
theorem geo_retry_backoff (r : Nat) (msg : String) :
    handleGeoError .permissionDenied msg = .denyTerminal
  ∧ handleGeoError .timeout msg = .fallbackSingleShot
  ∧ (onFallbackFailure r).retryCount = min 5 (r + 1)
  ∧ (onFallbackFailure r).retryCount ≤ 5
  ∧ (onFallbackFailure 0).delayMs = 3000
  ∧ (onFallbackFailure r).delayMs
      = 3000 * 2 ^ ((onFallbackFailure r).retryCount - 1)
  ∧ (r + 1 < 5 →
      (onFallbackFailure (r + 1)).delayMs = 2 * (onFallbackFailure r).delayMs)
  ∧ (onFallbackFailure r).watchTimeoutMs ≤ 120000
  ∧ (onFallbackFailure r).watchTimeoutMs ≤ (onFallbackFailure (r + 1)).watchTimeoutMs
  ∧ (2 ≤ r → (onFallbackFailure r).watchTimeoutMs = 120000)
  ∧ retryAfterFailures r = min 5 r
  ∧ (onFallbackFailure (retryAfterFailures (r + 5))).delayMs = 3000 * 2 ^ 4
  ∧ onFallbackSuccessCount = 0 := by
  refine ⟨rfl, rfl, rfl, Nat.min_le_left _ _, rfl, rfl, ?_, Nat.min_le_left _ _,
    ?_, ?_, retryAfterFailures_eq_min r, ?_, rfl⟩
  · intro h5
    have h1 : min 5 (r + 1) = r + 1 := Nat.min_eq_right (by omega)
    have h2 : min 5 (r + 1 + 1) = r + 2 := Nat.min_eq_right (by omega)
    simp only [onFallbackFailure, h1, h2, Nat.add_sub_cancel]
    have : r + 2 - 1 = r + 1 := by omega
    rw [this, Nat.pow_succ]
    ring
  · have hmono : min 5 (r + 1) - 1 ≤ min 5 (r + 1 + 1) - 1 :=
      Nat.sub_le_sub_right (min_le_min le_rfl (by omega)) 1
    exact min_le_min le_rfl
      (Nat.mul_le_mul_left _ (Nat.pow_le_pow_right (by norm_num) hmono))
  · intro hr
    have hp : 4 ≤ 2 ^ (min 5 (r + 1) - 1) := by
      calc 4 = 2 ^ 2 := by norm_num
      _ ≤ 2 ^ (min 5 (r + 1) - 1) := by
          refine Nat.pow_le_pow_right (by norm_num) ?_
          have : 3 ≤ min 5 (r + 1) := le_min (by norm_num) (by omega)
          omega
    have hge : 120000 ≤ 30000 * 2 ^ (min 5 (r + 1) - 1) := by
      calc 120000 = 30000 * 4 := by norm_num
      _ ≤ 30000 * 2 ^ (min 5 (r + 1) - 1) := Nat.mul_le_mul_left _ hp
    simp [onFallbackFailure, Nat.min_eq_left hge]
  · rw [retryAfterFailures_eq_min]
    have hsat : min 5 (r + 5) = 5 := by omega
    rw [hsat]
    decide

/-- Witness for `geo_retry_backoff` at concrete retry counts. -/
theorem geo_retry_backoff_witness :
    handleGeoError .permissionDenied ("denied") = .denyTerminal
  ∧ handleGeoError .timeout ("t") = .fallbackSingleShot
  ∧ (onFallbackFailure 0).delayMs = 3000
  ∧ (onFallbackFailure 1).delayMs = 2 * (onFallbackFailure 0).delayMs
  ∧ (onFallbackFailure 9).retryCount ≤ 5
  ∧ (onFallbackFailure 2).watchTimeoutMs = 120000
  ∧ retryAfterFailures 9 = min 5 9
  ∧ (onFallbackFailure (retryAfterFailures (0 + 5))).delayMs = 3000 * 2 ^ 4 := by
  obtain ⟨a1, a2, a3, a4, a5, a6, a7, a8, a9, a10, a11, a12, a13⟩ :=
    geo_retry_backoff 0 ("t")
  obtain ⟨b1, b2, b3, b4, b5, b6, b7, b8, b9, b10, b11, b12, b13⟩ :=
    geo_retry_backoff 9 ("t")
  obtain ⟨c1, c2, c3, c4, c5, c6, c7, c8, c9, c10, c11, c12, c13⟩ :=
    geo_retry_backoff 2 ("t")
  exact ⟨(geo_retry_backoff 0 ("denied")).1, a2, a5, a7 (by omega), b4,
    c10 (by omega), b11, a12⟩

/-- A concrete connected realtime socket (token "a") and client state
referencing it, used to state the C9 facts. -/
def sockA : Sock := { sid := 0, token := "a", connected := true }

/-- Client state holding `sockA` as its one live socket. -/
def scStateA : SCState := { socket := some sockA, nextSid := 1, created := 1 }

/-- C9 counterexample: with a live connected socket holding token "a",
`connect("b")` returns the same socket object with its credentials
updated — but no reconnect happens: `.connect()` is never invoked on it
(`connectCalled` stays false, it is only called when the socket is
disconnected) and no new socket object is created, contradicting the
claim that supplying a different token reconnects. -/
theorem connect_no_reconnect_counterexample :
    (connectClient scStateA (some ("b")) none).2 = some 0
  ∧ ((connectClient scStateA (some ("b")) none).1.socket.map Sock.token)
      = some ("b")
  ∧ ((connectClient scStateA (some ("b")) none).1.socket.map Sock.connectCalled)
      = some false
  ∧ (connectClient scStateA (some ("b")) none).1.created = 1 := by
  decide

/-- C9 (amended): `connect()` is idempotent while connected: with the
same token it returns the existing connection and changes nothing; with
a different token it updates the existing connection object's credentials
and returns that same object — creating no duplicate socket object and
not reconnecting (the new token takes effect only on a future
connection attempt). -/
theorem connect_idempotent (s : SCState) (sock : Sock) (t : String)
    (hs : s.socket = some sock) (hc : sock.connected = true) :
    (sock.token = t → connectClient s (some t) none = (s, some sock.sid))
  ∧ (sock.token ≠ t →
      (connectClient s (some t) none).2 = some sock.sid
    ∧ (connectClient s (some t) none).1.socket = some { sock with token := t }
    ∧ (connectClient s (some t) none).1.created = s.created) := by
  obtain ⟨os, ns, cs⟩ := s
  simp only [SCState.mk.injEq] at hs ⊢
  cases hs
  constructor
  · intro ht
    simp [connectClient, ht, hc]
  · intro ht
    refine ⟨?_, ?_, ?_⟩ <;>
      simp [connectClient, ht, hc, Bool.or_false]

/-- Witness for `connect_idempotent`: a connected socket with token "a"
is returned unchanged by `connect("a")`, and `connect("new")` creates no
additional socket object. -/
theorem connect_idempotent_witness :
    connectClient scStateA (some ("a")) none = (scStateA, some 0)
  ∧ (connectClient scStateA (some ("new")) none).1.created = 1 := by
  have h1 := connect_idempotent scStateA sockA ("a") rfl rfl
  have h2 := connect_idempotent scStateA sockA ("new") rfl rfl
  exact ⟨h1.1 rfl, (h2.2 (by decide)).2.2⟩

/-- C10: `ChatSocketClient.disconnect()` with a live socket and a tracked
service room emits one best-effort `leave:service` for that room, tears
the socket down, and clears the entire listener registry; consequently a
later `connect()` builds a socket with no previously registered handlers
attached, and a callback must be registered again (after which it is
attached to the new socket) to receive events. -/
theorem chat_disconnect_clears_listeners (s : ChatState) (sock : ChatSock)
    (sid tok event : String) (cb : Nat)
    (hs : s.socket = some sock) (hsid : s.serviceId = some sid) :
    (chatDisconnect s).2 = [ChatEmit.leave sid]
  ∧ (chatDisconnect s).1.socket = none
  ∧ (chatDisconnect s).1.listeners = []
  ∧ ((chatConnect (chatDisconnect s).1 tok).socket.map ChatSock.attached)
      = some []
  ∧ ((registerListener (chatConnect (chatDisconnect s).1 tok) event cb).socket.map
        ChatSock.attached) = some [(event, cb)] := by
  obtain ⟨os, osid, l, nc⟩ := s
  subst hs
  subst hsid
  refine ⟨rfl, rfl, rfl, rfl, ?_⟩
  simp [chatDisconnect, chatLeaveService, chatConnect, mkNewChatSock,
    registerListener]

/-- A concrete chat socket with one attached handler, for the C10
witness. -/
def chatSockEx : ChatSock :=
  { csid := 0, token := "t", connected := true,
    attached := [(("message:received" : String), 7)] }

/-- A concrete chat client state: live socket, tracked room "svc", one
registered listener. -/
def chatStateEx : ChatState :=
  { socket := some chatSockEx, serviceId := some ("svc"),
    listeners := [(("message:received" : String), 7)], nextCsid := 1 }

/-- Witness for `chat_disconnect_clears_listeners` on `chatStateEx`. -/
theorem chat_disconnect_clears_listeners_witness :
    (chatDisconnect chatStateEx).2 = [ChatEmit.leave ("svc")]
  ∧ (chatDisconnect chatStateEx).1.listeners = []
  ∧ ((chatConnect (chatDisconnect chatStateEx).1 ("t2")).socket.map
        ChatSock.attached) = some []
  ∧ ((registerListener (chatConnect (chatDisconnect chatStateEx).1 ("t2"))
        ("message:received") 7).socket.map ChatSock.attached)
      = some [(("message:received" : String), 7)] := by
  have h := chat_disconnect_clears_listeners chatStateEx chatSockEx ("svc")
    ("t2") ("message:received") 7 rfl rfl
  exact ⟨h.1, h.2.2.1, h.2.2.2.1, h.2.2.2.2⟩

end HelpBuddy
